import Mathlib

/-!
Shallow embedding of the ADXL345 i2c character-device driver.

The external i2c bus (the C `i2c_smbus_*` binding layer) is modelled as an
oracle `Bus : Nat → Int × List Nat`: the n-th bus transaction receives the
integer return value `(bus n).1` (negative values are kernel error returns)
and, for block reads, the data bytes `(bus n).2`.  A `BusState` carries the
transaction counter and a log of the requests issued so far, so theorems can
speak about which transport transactions a code path performs.

Kernel `Error` values are modelled as the negative errno `Int` the kernel
`Error` struct stores (`to_kernel_errno` is the identity on this view).
Machine `i16` arithmetic is modelled on `Int` with explicit two's-complement
wrapping (`wrap16`).
-/

set_option maxRecDepth 8192

namespace Adxl345

/-- Kernel error value for EPERM (negative errno, as stored in `Error`). -/
def EPERM : Int := -1

/-- Kernel error value for EAGAIN (negative errno). -/
def EAGAIN : Int := -11

/-- Kernel error value for EINVAL (negative errno). -/
def EINVAL : Int := -22

/-- Kernel error value for EIO (negative errno). -/
def EIO : Int := -5

/-- Kernel error value for EFAULT (negative errno). -/
def EFAULT : Int := -14

/-- Kernel errors are the negative errno integers. -/
abbrev KError := Int

/-- `Error::to_kernel_errno` returns the stored (negative) errno. -/
def to_kernel_errno (e : KError) : Int := e

/-- One bus-facing action performed by the driver: an SMBus byte read, an
SMBus byte write, an i2c block read, a `coarse_sleep`, or the unregistration
of a client device.  Theorems use the log of these events to reason about
which transport transactions a code path performs. -/
inductive Event
  | rdByte (reg : Nat)
  | wrByte (reg : Nat) (val : Nat)
  | rdBlock (reg : Nat) (len : Nat)
  | sleep (ms : Nat)
  | unregDevice (ptr : Nat)
deriving DecidableEq

/-- The external bus oracle: response (return value, data bytes) of the n-th
bus transaction. -/
abbrev Bus := Nat → Int × List Nat

/-- Transaction counter plus the log of requests issued so far. -/
structure BusState where
  n : Nat
  log : List Event
deriving DecidableEq

/-- Issue one bus transaction: consume the next oracle response and log the
request. -/
def busCall (bus : Bus) (s : BusState) (e : Event) : (Int × List Nat) × BusState :=
  (bus s.n, ⟨s.n + 1, s.log ++ [e]⟩)

/- ------------------------------------------------------------------ -/
/- `I2CClient` SMBus operations (rust/kernel/i2c/client.rs).          -/
/- ------------------------------------------------------------------ -/

/-- `I2CClient::read_byte`: `i2c_smbus_read_byte_data`; a negative return is
an error, otherwise the low byte of the return value is the value read. -/
def read_byte (bus : Bus) (s : BusState) (command : Nat) : Except KError Nat × BusState :=
  let r := busCall bus s (Event.rdByte command)
  if r.1.1 < 0 then (Except.error r.1.1, r.2) else (Except.ok (r.1.1.toNat % 256), r.2)

/-- `I2CClient::write_byte`: `i2c_smbus_write_byte_data` through `to_result`. -/
def write_byte (bus : Bus) (s : BusState) (command v : Nat) : Except KError Unit × BusState :=
  let r := busCall bus s (Event.wrByte command v)
  if r.1.1 < 0 then (Except.error r.1.1, r.2) else (Except.ok (), r.2)

/-- `I2CClient::read_i2c_block`: EINVAL when more than 32 bytes are requested
(no bus transaction in that case); otherwise one block-read transaction whose
nonnegative return value is the count of bytes read. -/
def read_i2c_block (bus : Bus) (s : BusState) (command len : Nat) :
    Except KError (Nat × List Nat) × BusState :=
  if len > 32 then (Except.error EINVAL, s)
  else
    let r := busCall bus s (Event.rdBlock command len)
    if r.1.1 < 0 then (Except.error r.1.1, r.2)
    else (Except.ok (r.1.1.toNat, r.1.2), r.2)

/- ------------------------------------------------------------------ -/
/- Register addresses (constant/mod.rs).                              -/
/- ------------------------------------------------------------------ -/

/-- BW_RATE register address. -/
def ADXL345_REG_BW_RATE : Nat := 0x2C

/-- POWER_CTL register address. -/
def ADXL345_REG_POWER_CTL : Nat := 0x2D

/-- INT_ENABLE register address. -/
def ADXL345_REG_INT_ENABLE : Nat := 0x2E

/-- INT_MAP register address. -/
def ADXL345_REG_INT_MAP : Nat := 0x2F

/-- INT_SOURCE register address. -/
def ADXL345_REG_INT_SOURCE : Nat := 0x30

/-- DATA_FORMAT register address. -/
def ADXL345_REG_DATA_FORMAT : Nat := 0x31

/-- DATAX0 register address (X-axis low byte). -/
def ADXL345_REG_DATAX0 : Nat := 0x32

/-- FIFO_CTL register address. -/
def ADXL345_REG_FIFO_CTL : Nat := 0x38

/- ------------------------------------------------------------------ -/
/- i16 arithmetic (two's-complement wrapping on Int).                 -/
/- ------------------------------------------------------------------ -/

/-- Reduce an integer into the signed 16-bit range by two's-complement
wrapping. -/
def wrap16 (z : Int) : Int :=
  if z % 65536 < 32768 then z % 65536 else z % 65536 - 65536

/-- Rust `i16` subtraction (wrapping, as in release builds). -/
def sub16 (a b : Int) : Int := wrap16 (a - b)

/-- Rust `i16::abs` (wrapping: `abs` of -32768 is -32768, as in release
builds). -/
def abs16 (a : Int) : Int := wrap16 (a.natAbs : Int)

/-- `i16::from_le_bytes [b0, b1]`. -/
def i16_from_le_bytes (b0 b1 : Nat) : Int := wrap16 ((b0 % 256 : Nat) + 256 * (b1 % 256))

/-- Rust `i16` left shift by two bits (low 16 bits kept). -/
def shl2_16 (v : Int) : Int := wrap16 (v * 4)

/- ------------------------------------------------------------------ -/
/- Sample and device operations (structures/mod.rs).                  -/
/- ------------------------------------------------------------------ -/

/-- `Adxl345Sample`: three signed 16-bit axis values. -/
structure Adxl345Sample where
  x : Int
  y : Int
  z : Int
deriving DecidableEq

/-- `Adxl345::data_ready`: read INT_SOURCE; bit 7 set means one ready sample. -/
def data_ready (bus : Bus) (s : BusState) : Except KError Nat × BusState :=
  match read_byte bus s ADXL345_REG_INT_SOURCE with
  | (Except.ok ret, s1) => if ret &&& 0x80 ≠ 0 then (Except.ok 1, s1) else (Except.ok 0, s1)
  | (Except.error e, s1) => (Except.error e, s1)

/-- `Adxl345::read_data`: fixed-length 6-byte block read from DATAX0; on a
count of exactly 6, decode three little-endian i16 values each shifted left
by 2; any other count is EINVAL; a transport error propagates.  The buffer is
zero-initialized, hence the default byte 0. -/
def read_data (bus : Bus) (s : BusState) : Except KError Adxl345Sample × BusState :=
  match read_i2c_block bus s ADXL345_REG_DATAX0 6 with
  | (Except.ok (6, data), s1) =>
    (Except.ok
      ⟨shl2_16 (i16_from_le_bytes (data.getD 0 0) (data.getD 1 0)),
       shl2_16 (i16_from_le_bytes (data.getD 2 0) (data.getD 3 0)),
       shl2_16 (i16_from_le_bytes (data.getD 4 0) (data.getD 5 0))⟩, s1)
  | (Except.ok (_, _), s1) => (Except.error EINVAL, s1)
  | (Except.error e, s1) => (Except.error e, s1)

/-- `Adxl345::set_default_config`: standby, disable interrupts, clear the
BW_RATE low-power bit (read-modify-write), data format 0x0B, route interrupts
to INT1, clear the FIFO_CTL mode bits (read-modify-write); the first failing
step aborts with its underlying error. -/
def set_default_config (bus : Bus) (s : BusState) : Except KError Unit × BusState :=
  match write_byte bus s ADXL345_REG_POWER_CTL 0x00 with
  | (Except.error e, s1) => (Except.error e, s1)
  | (Except.ok _, s1) =>
    match write_byte bus s1 ADXL345_REG_INT_ENABLE 0x00 with
    | (Except.error e, s2) => (Except.error e, s2)
    | (Except.ok _, s2) =>
      match read_byte bus s2 ADXL345_REG_BW_RATE with
      | (Except.error e, s3) => (Except.error e, s3)
      | (Except.ok value, s3) =>
        match write_byte bus s3 ADXL345_REG_BW_RATE ((value &&& 0xFF) &&& 0xEF) with
        | (Except.error e, s4) => (Except.error e, s4)
        | (Except.ok _, s4) =>
          match write_byte bus s4 ADXL345_REG_DATA_FORMAT 0x0B with
          | (Except.error e, s5) => (Except.error e, s5)
          | (Except.ok _, s5) =>
            match write_byte bus s5 ADXL345_REG_INT_MAP 0x00 with
            | (Except.error e, s6) => (Except.error e, s6)
            | (Except.ok _, s6) =>
              match read_byte bus s6 ADXL345_REG_FIFO_CTL with
              | (Except.error e, s7) => (Except.error e, s7)
              | (Except.ok value2, s7) =>
                write_byte bus s7 ADXL345_REG_FIFO_CTL ((value2 &&& 0xFF) &&& 0x3F)

/- ------------------------------------------------------------------ -/
/- The noise filter and the read pipeline (fileops.rs).               -/
/- ------------------------------------------------------------------ -/

/-- The fixed filter threshold (50 raw units). -/
def ADXL345_FILTER : Int := 50

/-- `adxl345_filter_out`: per-axis wrapping `i16` comparison of the candidate
against the baseline sample, in the order x, y, z with early exit; the
returned pair is (filtered-out?, new baseline).  The baseline is overwritten
with the candidate on every path. -/
def adxl345_filter_out (new_sample last_sample : Adxl345Sample) : Bool × Adxl345Sample :=
  if abs16 (sub16 new_sample.x last_sample.x) > ADXL345_FILTER then (false, new_sample)
  else if abs16 (sub16 new_sample.y last_sample.y) > ADXL345_FILTER then (false, new_sample)
  else if abs16 (sub16 new_sample.z last_sample.z) > ADXL345_FILTER then (false, new_sample)
  else (true, new_sample)

/-- `size_of::<Adxl345Sample>()`: three `repr(C)` i16 fields, 6 bytes. -/
def sizeOfSample : Nat := 6

/-- The user-space buffer writer (`IoBufferWriter`): total byte capacity,
the i16 fields written so far, and an oracle saying whether the k-th `write`
call faults (EFAULT). -/
structure Writer where
  cap : Nat
  written : List Int
  failAt : Nat → Bool

/-- One `writer.write(&field)` call: either faults with EFAULT or appends the
field. -/
def writer_write (w : Writer) (v : Int) : Except KError Writer :=
  if w.failAt w.written.length then Except.error EFAULT
  else Except.ok { w with written := w.written ++ [v] }

/-- Outcome of a `read` call: the returned value (byte count or error), the
final bus state, the final filter baseline, and the final writer. -/
structure ReadOut where
  res : Except KError Nat
  s : BusState
  base : Adxl345Sample
  w : Writer

/-- The three per-field `write` calls of an accepted sample, in the order x,
y, z, each checked for errors; a failure returns the error together with the
writer as already advanced by the earlier successful field writes. -/
def write_sample (w : Writer) (acc : Adxl345Sample) : Except (KError × Writer) Writer :=
  match writer_write w acc.x with
  | Except.error e => Except.error (e, w)
  | Except.ok w1 =>
    match writer_write w1 acc.y with
    | Except.error e => Except.error (e, w1)
    | Except.ok w2 =>
      match writer_write w2 acc.z with
      | Except.error e => Except.error (e, w2)
      | Except.ok w3 => Except.ok w3

/-- The readiness wait loop of `read` step 2, with fuel bounding the number
of polls (`none` = still polling when the fuel runs out): ready breaks out;
not ready returns EAGAIN when non-blocking, else sleeps 10 ms and retries; a
transport error aborts with EIO. -/
def wait_ready (bus : Bus) (nonblock : Bool) : Nat → BusState → Option (Except KError Unit × BusState)
  | 0, _ => none
  | fuel + 1, s =>
    match data_ready bus s with
    | (Except.ok ready, s1) =>
      if ready > 0 then some (Except.ok (), s1)
      else if nonblock then some (Except.error EAGAIN, s1)
      else wait_ready bus nonblock fuel ⟨s1.n, s1.log ++ [Event.sleep 10]⟩
    | (Except.error _, s1) => some (Except.error EIO, s1)

/-- Result of one iteration of the fill loop: either the whole `read` call
finishes (`done`, by error or by the early-exit break), or the loop continues
with the updated state (`again` — both the `continue` after a filtered-out
sample and the fall-through after a delivered one). -/
inductive StepRes
  | done (ro : ReadOut)
  | again (s : BusState) (base : Adxl345Sample) (w : Writer) (count : Nat)

/-- Readiness re-check after a delivered sample: the byte counter has
advanced by 6; not ready breaks out of the loop returning the bytes written
so far, ready continues, a transport error aborts the call with EIO. -/
def fill_ready_stage (bus : Bus) (s1 : BusState) (base1 : Adxl345Sample) (w3 : Writer)
    (count : Nat) : StepRes :=
  match data_ready bus s1 with
  | (Except.ok 0, s2) => StepRes.done ⟨Except.ok (count + 6), s2, base1, w3⟩
  | (Except.ok _, s2) => StepRes.again s2 base1 w3 (count + 6)
  | (Except.error _, s2) => StepRes.done ⟨Except.error EIO, s2, base1, w3⟩

/-- Delivery of an accepted sample: write the three fields (a fault aborts
the call with that error, keeping the fields already written in the
caller's buffer), then re-check readiness. -/
def fill_write_stage (bus : Bus) (s1 : BusState) (base1 : Adxl345Sample) (w : Writer)
    (count : Nat) (acc : Adxl345Sample) : StepRes :=
  match write_sample w acc with
  | Except.error (e, wp) => StepRes.done ⟨Except.error e, s1, base1, wp⟩
  | Except.ok w3 => fill_ready_stage bus s1 base1 w3 count

/-- The filter test on a candidate sample: a filtered-out sample is
discarded (`continue`) after updating the baseline; an accepted one is
delivered.  In both cases the baseline becomes the candidate. -/
def fill_filter_stage (bus : Bus) (s1 : BusState) (base : Adxl345Sample) (w : Writer)
    (count : Nat) (acc : Adxl345Sample) : StepRes :=
  let fr := adxl345_filter_out acc base
  if fr.1 then StepRes.again s1 fr.2 w count
  else fill_write_stage bus s1 fr.2 w count acc

/-- One iteration of the fill loop body of `read` step 3: read a sample (a
transport error aborts the whole call with EIO), then run the filter and
delivery stages. -/
def fill_step (bus : Bus) (s : BusState) (base : Adxl345Sample) (w : Writer)
    (count : Nat) : StepRes :=
  match read_data bus s with
  | (Except.error _, s1) => StepRes.done ⟨Except.error EIO, s1, base, w⟩
  | (Except.ok acc, s1) => fill_filter_stage bus s1 base w count acc

/-- The fill loop of `read` step 3 (`for _ in 0..items`): run `fill_step` at
most `items` times; running out of iterations returns the bytes written. -/
def fill_loop (bus : Bus) : Nat → BusState → Adxl345Sample → Writer → Nat → ReadOut
  | 0, s, base, w, count => ⟨Except.ok count, s, base, w⟩
  | iters + 1, s, base, w, count =>
    match fill_step bus s base w count with
    | StepRes.done ro => ro
    | StepRes.again s2 base2 w2 count2 => fill_loop bus iters s2 base2 w2 count2

/-- `Adxl345FileOps::read`: compute `items = capacity / 6` (0 is EINVAL with
nothing touched), run the readiness wait, then the fill loop starting from a
zero byte count.  `none` models the blocking wait not having finished within
the fuel. -/
def adxl345_read (bus : Bus) (nonblock : Bool) (fuel : Nat) (s : BusState)
    (base : Adxl345Sample) (w : Writer) : Option ReadOut :=
  if w.cap / sizeOfSample = 0 then some ⟨Except.error EINVAL, s, base, w⟩
  else
    match wait_ready bus nonblock fuel s with
    | none => none
    | some (Except.error e, s1) => some ⟨Except.error e, s1, base, w⟩
    | some (Except.ok _, s1) => some (fill_loop bus (w.cap / sizeOfSample) s1 base w 0)

/- ------------------------------------------------------------------ -/
/- Driver event dispatch (rust/kernel/i2c/driver.rs).                 -/
/- ------------------------------------------------------------------ -/

/-- An `I2CDriverCallbacks` handler implementation with internal state σ:
each method with a return value yields a kernel result and a new state. -/
structure Handler (σ : Type) where
  probe : σ → Except KError Unit × σ
  command : σ → Nat → Nat → Except KError Unit × σ
  detect : σ → Nat → Except KError Unit × σ

/-- `I2CDriverVtable::get_driver_instance`: the clientdata pointer attached
to the device, `none` when null/unset, in which case EINVAL is surfaced. -/
def get_driver_instance {T : Type} (clientdata : Option T) : Except KError T :=
  match clientdata with
  | none => Except.error EINVAL
  | some t => Except.ok t

/-- `I2CDriverVtable::probe_callback`: recover the handler from clientdata;
on failure translate the error with `to_kernel_errno` and invoke nothing;
otherwise invoke `probe` and translate its outcome (0 on success). -/
def probe_callback {σ : Type} (clientdata : Option (Handler σ)) (st : σ) : Int × σ :=
  match get_driver_instance clientdata with
  | Except.error err => (to_kernel_errno err, st)
  | Except.ok driver_instance =>
    match driver_instance.probe st with
    | (Except.ok _, st1) => (0, st1)
    | (Except.error e, st1) => (to_kernel_errno e, st1)

/-- `I2CDriverVtable::command_callback`: same dispatch shape as probe. -/
def command_callback {σ : Type} (clientdata : Option (Handler σ)) (st : σ)
    (cmd arg : Nat) : Int × σ :=
  match get_driver_instance clientdata with
  | Except.error err => (to_kernel_errno err, st)
  | Except.ok driver_instance =>
    match driver_instance.command st cmd arg with
    | (Except.ok _, st1) => (0, st1)
    | (Except.error e, st1) => (to_kernel_errno e, st1)

/-- `I2CDriverVtable::detect_callback`: same dispatch shape as probe. -/
def detect_callback {σ : Type} (clientdata : Option (Handler σ)) (st : σ)
    (info : Nat) : Int × σ :=
  match get_driver_instance clientdata with
  | Except.error err => (to_kernel_errno err, st)
  | Except.ok driver_instance =>
    match driver_instance.detect st info with
    | (Except.ok _, st1) => (0, st1)
    | (Except.error e, st1) => (to_kernel_errno e, st1)

/- ------------------------------------------------------------------ -/
/- Client handle ownership (rust/kernel/i2c/client.rs).               -/
/- ------------------------------------------------------------------ -/

/-- `I2CClient`: pointer to the underlying C `i2c_client` (modelled as an
address) plus the ownership flag, set at initialization and never changed. -/
structure I2CClientHandle where
  ptr : Nat
  owned : Bool
deriving DecidableEq

/-- `I2CClient::new_client_device`: the external `i2c_new_client_device`
outcome is the parameter; on success the resulting handle is owning. -/
def new_client_device (create_result : Except KError Nat) : Except KError I2CClientHandle :=
  match create_result with
  | Except.error e => Except.error e
  | Except.ok p => Except.ok ⟨p, true⟩

/-- `I2CClient::from_raw_ptr`: wrap an externally supplied pointer in a
non-owning handle. -/
def from_raw_ptr (p : Nat) : I2CClientHandle := ⟨p, false⟩

/-- `impl Drop for I2CClient`: unregister the device only when owning. -/
def drop_client (c : I2CClientHandle) : List Event :=
  if c.owned then [Event.unregDevice c.ptr] else []

/- ------------------------------------------------------------------ -/
/- Concrete oracles used by witnesses and counterexamples.            -/
/- ------------------------------------------------------------------ -/

/-- A writer with the given capacity that never faults. -/
def okWriter (cap : Nat) : Writer := ⟨cap, [], fun _ => false⟩

/-- Bus for the C1 zero-byte run: ready, then a block read of the all-zero
sample (which the filter rejects against the zero baseline). -/
def busC1zero : Bus := fun n =>
  if n = 0 then (128, []) else (6, [0, 0, 0, 0, 0, 0])

/-- Bus for the C1 witness run: ready, one accepted sample, then not ready. -/
def busC1one : Bus := fun n =>
  if n = 0 then (128, [])
  else if n = 1 then (6, [25, 0, 50, 0, 75, 0])
  else (0, [])

/-- Unfolding lemma: a fill-loop iteration whose step finishes yields that
result. -/
theorem fill_loop_succ_done (bus : Bus) (k : Nat) (s : BusState)
    (base : Adxl345Sample) (w : Writer) (count : Nat) (ro : ReadOut)
    (h : fill_step bus s base w count = StepRes.done ro) :
    fill_loop bus (k + 1) s base w count = ro := by
  rw [fill_loop, h]

/-- Unfolding lemma: a fill-loop iteration whose step continues recurses on
the remaining iterations. -/
theorem fill_loop_succ_again (bus : Bus) (k : Nat) (s : BusState)
    (base : Adxl345Sample) (w : Writer) (count : Nat) (s2 : BusState)
    (base2 : Adxl345Sample) (w2 : Writer) (count2 : Nat)
    (h : fill_step bus s base w count = StepRes.again s2 base2 w2 count2) :
    fill_loop bus (k + 1) s base w count = fill_loop bus k s2 base2 w2 count2 := by
  rw [fill_loop, h]

/-- Helper for C1: the readiness re-check stage yields, in every outcome, a
byte counter of `count + 6`. -/
theorem fill_ready_stage_dvd (bus : Bus) (s1 : BusState) (base1 : Adxl345Sample)
    (w3 : Writer) (count : Nat) (h : 6 ∣ count) :
    (∀ ro c, fill_ready_stage bus s1 base1 w3 count = StepRes.done ro →
        ro.res = Except.ok c → 6 ∣ c) ∧
    (∀ s2 base2 w2 count2,
        fill_ready_stage bus s1 base1 w3 count = StepRes.again s2 base2 w2 count2 →
        6 ∣ count2) := by
  rcases h4 : data_ready bus s1 with ⟨r4, s2a⟩
  rcases r4 with e4 | n4
  · have hv : fill_ready_stage bus s1 base1 w3 count =
        StepRes.done ⟨Except.error EIO, s2a, base1, w3⟩ := by
      unfold fill_ready_stage
      rw [h4]
    refine ⟨fun ro c hdone hres => ?_, fun s2 base2 w2 count2 hagain => ?_⟩
    · rw [hv] at hdone
      cases hdone
      simp at hres
    · rw [hv] at hagain
      cases hagain
  · cases n4 with
    | zero =>
      have hv : fill_ready_stage bus s1 base1 w3 count =
          StepRes.done ⟨Except.ok (count + 6), s2a, base1, w3⟩ := by
        unfold fill_ready_stage
        rw [h4]
      refine ⟨fun ro c hdone hres => ?_, fun s2 base2 w2 count2 hagain => ?_⟩
      · rw [hv] at hdone
        cases hdone
        cases hres
        omega
      · rw [hv] at hagain
        cases hagain
    | succ m =>
      have hv : fill_ready_stage bus s1 base1 w3 count =
          StepRes.again s2a base1 w3 (count + 6) := by
        unfold fill_ready_stage
        rw [h4]
        rfl
      refine ⟨fun ro c hdone hres => ?_, fun s2 base2 w2 count2 hagain => ?_⟩
      · rw [hv] at hdone
        cases hdone
      · rw [hv] at hagain
        cases hagain
        omega

/-- Helper for C1: the delivery stage preserves divisibility of the byte
counter by 6. -/
theorem fill_write_stage_dvd (bus : Bus) (s1 : BusState) (base1 : Adxl345Sample)
    (w : Writer) (count : Nat) (acc : Adxl345Sample) (h : 6 ∣ count) :
    (∀ ro c, fill_write_stage bus s1 base1 w count acc = StepRes.done ro →
        ro.res = Except.ok c → 6 ∣ c) ∧
    (∀ s2 base2 w2 count2,
        fill_write_stage bus s1 base1 w count acc = StepRes.again s2 base2 w2 count2 →
        6 ∣ count2) := by
  rcases h3 : write_sample w acc with ⟨e, wp⟩ | w3
  · have hv : fill_write_stage bus s1 base1 w count acc =
        StepRes.done ⟨Except.error e, s1, base1, wp⟩ := by
      unfold fill_write_stage
      rw [h3]
    refine ⟨fun ro c hdone hres => ?_, fun s2 base2 w2 count2 hagain => ?_⟩
    · rw [hv] at hdone
      cases hdone
      simp at hres
    · rw [hv] at hagain
      cases hagain
  · have hv : fill_write_stage bus s1 base1 w count acc =
        fill_ready_stage bus s1 base1 w3 count := by
      unfold fill_write_stage
      rw [h3]
    refine ⟨fun ro c hdone hres => ?_, fun s2 base2 w2 count2 hagain => ?_⟩
    · rw [hv] at hdone
      exact (fill_ready_stage_dvd bus s1 base1 w3 count h).1 ro c hdone hres
    · rw [hv] at hagain
      exact (fill_ready_stage_dvd bus s1 base1 w3 count h).2 s2 base2 w2 count2 hagain

/-- Helper for C1: the filter stage preserves divisibility of the byte
counter by 6. -/
theorem fill_filter_stage_dvd (bus : Bus) (s1 : BusState) (base : Adxl345Sample)
    (w : Writer) (count : Nat) (acc : Adxl345Sample) (h : 6 ∣ count) :
    (∀ ro c, fill_filter_stage bus s1 base w count acc = StepRes.done ro →
        ro.res = Except.ok c → 6 ∣ c) ∧
    (∀ s2 base2 w2 count2,
        fill_filter_stage bus s1 base w count acc = StepRes.again s2 base2 w2 count2 →
        6 ∣ count2) := by
  rcases h2 : adxl345_filter_out acc base with ⟨fo, base1⟩
  cases fo with
  | true =>
    have hv : fill_filter_stage bus s1 base w count acc =
        StepRes.again s1 base1 w count := by
      unfold fill_filter_stage
      rw [h2]
      rfl
    refine ⟨fun ro c hdone hres => ?_, fun s2 base2 w2 count2 hagain => ?_⟩
    · rw [hv] at hdone
      cases hdone
    · rw [hv] at hagain
      cases hagain
      exact h
  | false =>
    have hv : fill_filter_stage bus s1 base w count acc =
        fill_write_stage bus s1 base1 w count acc := by
      unfold fill_filter_stage
      rw [h2]
      rfl
    refine ⟨fun ro c hdone hres => ?_, fun s2 base2 w2 count2 hagain => ?_⟩
    · rw [hv] at hdone
      exact (fill_write_stage_dvd bus s1 base1 w count acc h).1 ro c hdone hres
    · rw [hv] at hagain
      exact (fill_write_stage_dvd bus s1 base1 w count acc h).2 s2 base2 w2 count2 hagain

/-- Helper for C1: one fill-loop iteration preserves divisibility of the
byte counter by 6, both in its final result and in its continuation. -/
theorem fill_step_count_dvd (bus : Bus) (s : BusState) (base : Adxl345Sample)
    (w : Writer) (count : Nat) (h : 6 ∣ count) :
    (∀ ro c, fill_step bus s base w count = StepRes.done ro →
        ro.res = Except.ok c → 6 ∣ c) ∧
    (∀ s2 base2 w2 count2,
        fill_step bus s base w count = StepRes.again s2 base2 w2 count2 → 6 ∣ count2) := by
  rcases h1 : read_data bus s with ⟨r1, s1⟩
  rcases r1 with e1 | acc
  · have hv : fill_step bus s base w count =
        StepRes.done ⟨Except.error EIO, s1, base, w⟩ := by
      unfold fill_step
      rw [h1]
    refine ⟨fun ro c hdone hres => ?_, fun s2 base2 w2 count2 hagain => ?_⟩
    · rw [hv] at hdone
      cases hdone
      simp at hres
    · rw [hv] at hagain
      cases hagain
  · have hv : fill_step bus s base w count =
        fill_filter_stage bus s1 base w count acc := by
      unfold fill_step
      rw [h1]
    refine ⟨fun ro c hdone hres => ?_, fun s2 base2 w2 count2 hagain => ?_⟩
    · rw [hv] at hdone
      exact (fill_filter_stage_dvd bus s1 base w count acc h).1 ro c hdone hres
    · rw [hv] at hagain
      exact (fill_filter_stage_dvd bus s1 base w count acc h).2 s2 base2 w2 count2 hagain

/-- Helper for C1: the fill loop only ever adds multiples of 6 to the byte
counter, so a successful result is a multiple of 6 whenever the starting
count is. -/
theorem fill_loop_count_dvd (bus : Bus) :
    ∀ (iters : Nat) (s : BusState) (base : Adxl345Sample) (w : Writer) (count : Nat),
      6 ∣ count → ∀ c, (fill_loop bus iters s base w count).res = Except.ok c → 6 ∣ c := by
  intro iters
  induction iters with
  | zero =>
    intro s base w count h c hc
    rw [fill_loop] at hc
    cases hc
    exact h
  | succ n ih =>
    intro s base w count h c hc
    rw [fill_loop] at hc
    split at hc
    · exact (fill_step_count_dvd bus s base w count h).1 _ c (by assumption) hc
    · exact ih _ _ _ _ ((fill_step_count_dvd bus s base w count h).2 _ _ _ _ (by assumption)) c hc

/-- Helper: the result of `adxl345_read` in the case the wait loop exits
ready is the fill loop result. -/
theorem adxl345_read_cases (bus : Bus) (nonblock : Bool) (fuel : Nat)
    (s : BusState) (base : Adxl345Sample) (w : Writer) (ro : ReadOut)
    (hro : adxl345_read bus nonblock fuel s base w = some ro)
    (c : Nat) (hc : ro.res = Except.ok c) :
    ∃ s1, wait_ready bus nonblock fuel s = some (Except.ok (), s1) ∧
      ro = fill_loop bus (w.cap / sizeOfSample) s1 base w 0 := by
  unfold adxl345_read at hro
  split at hro
  · cases hro
    simp at hc
  · split at hro
    · cases hro
    · cases hro
      simp at hc
    · cases hro
      exact ⟨_, by assumption, rfl⟩

/-- Claim C1 (amended): every successful `read` returns a byte count that is
a whole multiple of `sizeOfSample` (6); a successful zero-byte return is
possible (see the counterexample) when every candidate sample read by the
fill loop is rejected by the noise filter. -/
theorem C1_read_multiple_of_record (bus : Bus) (nonblock : Bool) (fuel : Nat)
    (s : BusState) (base : Adxl345Sample) (w : Writer) (ro : ReadOut)
    (hro : adxl345_read bus nonblock fuel s base w = some ro)
    (c : Nat) (hc : ro.res = Except.ok c) : 6 ∣ c := by
  obtain ⟨s1, -, hfill⟩ := adxl345_read_cases bus nonblock fuel s base w ro hro c hc
  rw [hfill] at hc
  exact fill_loop_count_dvd bus _ s1 base w 0 (by omega) c hc

/-- Witness for C1: a concrete successful run (one accepted sample, 6 bytes)
to which the theorem applies. -/
theorem C1_read_multiple_witness : 6 ∣ 6 :=
  C1_read_multiple_of_record busC1one false 1 ⟨0, []⟩ ⟨0, 0, 0⟩ (okWriter 6)
    ⟨Except.ok 6,
     ⟨3, [Event.rdByte ADXL345_REG_INT_SOURCE, Event.rdBlock ADXL345_REG_DATAX0 6,
          Event.rdByte ADXL345_REG_INT_SOURCE]⟩,
     ⟨100, 200, 300⟩, ⟨6, [100, 200, 300], fun _ => false⟩⟩ rfl 6 rfl

/-- Counterexample for C1 as stated: a `read` call that succeeds with zero
bytes — the readiness wait saw a ready sample, but that sample was rejected
by the filter and the fill loop ran out of buffer slots, so `Ok(0)` is
returned. -/
theorem C1_zero_byte_success :
    (adxl345_read busC1zero false 1 ⟨0, []⟩ ⟨0, 0, 0⟩ (okWriter 6)).map ReadOut.res =
      some (Except.ok 0) := rfl

/-- Bus for the C2 run: ready, then three block reads decoding to samples
(40,0,0), (80,0,0), (140,0,0), then not ready.  The second sample is within
50 of the first (its predecessor) but more than 50 away from the last
delivered value (none yet, baseline 0). -/
def busC2 : Bus := fun n =>
  if n = 0 then (128, [])
  else if n = 1 then (6, [10, 0, 0, 0, 0, 0])
  else if n = 2 then (6, [20, 0, 0, 0, 0, 0])
  else if n = 3 then (6, [35, 0, 0, 0, 0, 0])
  else (0, [])

/-- Claim C2: the filter always overwrites the baseline with the candidate,
and rejects exactly when all three per-axis (16-bit computed) differences
are at most 50; the concrete run shows the comparison is against the
previous observed sample, not the last delivered one: samples 40, 80, 140
arrive on a zero baseline; 40 and 80 are each within 50 of their
predecessor and are not delivered (even though 80 is more than 50 from the
last delivered value), while 140 differs from 80 by 60 and is delivered. -/
theorem C2_filter_baseline (ns ls : Adxl345Sample) :
    ((adxl345_filter_out ns ls).2 = ns ∧
      ((adxl345_filter_out ns ls).1 = true ↔
        abs16 (sub16 ns.x ls.x) ≤ ADXL345_FILTER ∧
        abs16 (sub16 ns.y ls.y) ≤ ADXL345_FILTER ∧
        abs16 (sub16 ns.z ls.z) ≤ ADXL345_FILTER)) ∧
    (adxl345_read busC2 false 1 ⟨0, []⟩ ⟨0, 0, 0⟩ (okWriter 18)).map
        (fun ro => (ro.res, ro.w.written, ro.base)) =
      some (Except.ok 6, [140, 0, 0], ⟨140, 0, 0⟩) := by
  refine ⟨⟨?_, ?_⟩, rfl⟩
  · unfold adxl345_filter_out
    by_cases hx : abs16 (sub16 ns.x ls.x) > ADXL345_FILTER
    · rw [if_pos hx]
    · rw [if_neg hx]
      by_cases hy : abs16 (sub16 ns.y ls.y) > ADXL345_FILTER
      · rw [if_pos hy]
      · rw [if_neg hy]
        by_cases hz : abs16 (sub16 ns.z ls.z) > ADXL345_FILTER
        · rw [if_pos hz]
        · rw [if_neg hz]
  · unfold adxl345_filter_out
    by_cases hx : abs16 (sub16 ns.x ls.x) > ADXL345_FILTER
    · rw [if_pos hx]
      constructor
      · intro hfalse
        exact Bool.noConfusion hfalse
      · rintro ⟨h1, h2, h3⟩
        omega
    · rw [if_neg hx]
      by_cases hy : abs16 (sub16 ns.y ls.y) > ADXL345_FILTER
      · rw [if_pos hy]
        constructor
        · intro hfalse
          exact Bool.noConfusion hfalse
        · rintro ⟨h1, h2, h3⟩
          omega
      · rw [if_neg hy]
        by_cases hz : abs16 (sub16 ns.z ls.z) > ADXL345_FILTER
        · rw [if_pos hz]
          constructor
          · intro hfalse
            exact Bool.noConfusion hfalse
          · rintro ⟨h1, h2, h3⟩
            omega
        · rw [if_neg hz]
          constructor
          · intro _
            exact ⟨by omega, by omega, by omega⟩
          · intro _
            rfl

/-- Writer that faults on its second `write` call (the y field). -/
def failSecondWriter : Writer := ⟨6, [], fun k => k == 1⟩

/-- Writer that faults on its third `write` call (the z field). -/
def failThirdWriter : Writer := ⟨6, [], fun k => k == 2⟩

/-- Claim C3: dispatching probe, command or detect on a device whose
handler-context pointer is null surfaces the EINVAL-coded invalid-state
error, translated to a negative integer for the bus ABI, and leaves the
handler state untouched (no handler method is invoked). -/
theorem C3_null_context_dispatch {σ : Type} (st : σ) (cmd arg info : Nat) :
    get_driver_instance (none : Option (Handler σ)) = Except.error EINVAL ∧
    probe_callback (none : Option (Handler σ)) st = (to_kernel_errno EINVAL, st) ∧
    command_callback (none : Option (Handler σ)) st cmd arg = (to_kernel_errno EINVAL, st) ∧
    detect_callback (none : Option (Handler σ)) st info = (to_kernel_errno EINVAL, st) ∧
    to_kernel_errno EINVAL < 0 :=
  ⟨rfl, rfl, rfl, rfl, by decide⟩

/-- Claim C7: a `read` whose buffer capacity is below `sizeOfSample` returns
EINVAL with the bus state (hence the transaction log), the baseline and the
writer all untouched: no transport call is made. -/
theorem C7_capacity_too_small (bus : Bus) (nonblock : Bool) (fuel : Nat)
    (s : BusState) (base : Adxl345Sample) (w : Writer) (hcap : w.cap < 6) :
    adxl345_read bus nonblock fuel s base w = some ⟨Except.error EINVAL, s, base, w⟩ := by
  have h : w.cap / sizeOfSample = 0 :=
    Nat.div_eq_of_lt (by simpa [sizeOfSample] using hcap)
  simp [adxl345_read, h]

/-- Witness for C7 at a concrete 3-byte buffer. -/
theorem C7_capacity_witness :
    adxl345_read busC1zero false 1 ⟨0, []⟩ ⟨0, 0, 0⟩ (okWriter 3) =
      some ⟨Except.error EINVAL, ⟨0, []⟩, ⟨0, 0, 0⟩, okWriter 3⟩ :=
  C7_capacity_too_small busC1zero false 1 ⟨0, []⟩ ⟨0, 0, 0⟩ (okWriter 3) (by decide)

/-- Claim C8: a handle built by `new_client_device` is owning and its drop
unregisters the underlying device; a handle reconstructed from a raw
callback pointer is non-owning and its drop performs nothing. -/
theorem C8_handle_ownership :
    (∀ (res : Except KError Nat) (p : Nat) (c : I2CClientHandle),
        res = Except.ok p → new_client_device res = Except.ok c →
        c.owned = true ∧ drop_client c = [Event.unregDevice p]) ∧
    (∀ p : Nat, (from_raw_ptr p).owned = false ∧ drop_client (from_raw_ptr p) = []) := by
  constructor
  · intro res p c hres hc
    subst hres
    cases hc
    exact ⟨rfl, rfl⟩
  · intro p
    exact ⟨rfl, rfl⟩

/-- Witness for C8 at a concrete pointer value. -/
theorem C8_handle_ownership_witness :
    (⟨7, true⟩ : I2CClientHandle).owned = true ∧
      drop_client ⟨7, true⟩ = [Event.unregDevice 7] :=
  C8_handle_ownership.1 (Except.ok 7) 7 ⟨7, true⟩ rfl rfl

/-- An integer already inside the signed 16-bit range is unchanged by
two's-complement wrapping. -/
theorem wrap16_fixed (z : Int) (h1 : -32768 ≤ z) (h2 : z ≤ 32767) : wrap16 z = z := by
  unfold wrap16
  split <;> omega

/-- Claim C9: the filter's per-axis 16-bit test agrees with the exact
mathematical test |new - baseline| > 50 whenever the true difference has
magnitude at most 32767 (fits in i16 with a representable absolute value);
and it disagrees on concrete overflowing pairs: a true difference of 65535
wraps to -1 and is filtered out, and a computed difference of -32768 has a
wrapping `abs` of -32768 and is filtered out, although both exceed 50. -/
theorem C9_filter_arith :
    (∀ a b : Int, (a - b).natAbs ≤ 32767 →
        (ADXL345_FILTER < abs16 (sub16 a b) ↔ 50 < (a - b).natAbs)) ∧
    ((adxl345_filter_out ⟨32767, 0, 0⟩ ⟨-32768, 0, 0⟩).1 = true ∧
      50 < ((32767 : Int) - (-32768)).natAbs) ∧
    ((adxl345_filter_out ⟨-32768, 0, 0⟩ ⟨0, 0, 0⟩).1 = true ∧
      50 < ((-32768 : Int) - 0).natAbs) := by
  refine ⟨?_, ⟨by decide, by decide⟩, ⟨by decide, by decide⟩⟩
  intro a b h
  have e1 : sub16 a b = a - b := wrap16_fixed _ (by omega) (by omega)
  have e2 : abs16 (a - b) = ((a - b).natAbs : Int) := wrap16_fixed _ (by omega) (by omega)
  rw [e1, e2]
  unfold ADXL345_FILTER
  omega

/-- Witness for C9 at a concrete in-range pair. -/
theorem C9_filter_arith_witness :
    ADXL345_FILTER < abs16 (sub16 100 0) ↔ 50 < ((100 : Int) - 0).natAbs :=
  C9_filter_arith.1 100 0 (by decide)

/-- Claim C10: an accepted sample's three fields are written to the caller's
buffer one field at a time in the order x, y, z (first run); a fault on the
y write returns that error with only the x field in the buffer, and a fault
on the z write returns that error with x and y in the buffer — a partial
record — and the byte count written so far is not reported (the result is
the error, not a count). -/
theorem C10_per_field_writes :
    ((adxl345_read busC1one false 1 ⟨0, []⟩ ⟨0, 0, 0⟩ (okWriter 6)).map
        (fun ro => (ro.res, ro.w.written)) = some (Except.ok 6, [100, 200, 300])) ∧
    ((adxl345_read busC1one false 1 ⟨0, []⟩ ⟨0, 0, 0⟩ failSecondWriter).map
        (fun ro => (ro.res, ro.w.written)) = some (Except.error EFAULT, [100])) ∧
    ((adxl345_read busC1one false 1 ⟨0, []⟩ ⟨0, 0, 0⟩ failThirdWriter).map
        (fun ro => (ro.res, ro.w.written)) = some (Except.error EFAULT, [100, 200])) :=
  ⟨rfl, rfl, rfl⟩

/-- Bus for the C4 example: a block read returning count 6 with the spec's
raw bytes. -/
def busC4 : Bus := fun _ => (6, [4, 0, 8, 0, 12, 0])

/-- Bus for the C4 witness: a block read returning a short count of 3. -/
def busC4short : Bus := fun _ => (3, [])

/-- Claim C4: `read_data` always performs exactly one fixed-length 6-byte
block-read transaction at the X-axis low-byte register; a nonnegative
returned count other than 6 yields the invalid-data error (EINVAL); a count
of 6 decodes three little-endian signed 16-bit values (X, Y, Z byte pairs)
each left-shifted by 2; and the raw bytes [4,0,8,0,12,0] decode to the
sample (16, 32, 48). -/
theorem C4_read_data_decode (bus : Bus) (s : BusState) :
    ((read_data bus s).2 = ⟨s.n + 1, s.log ++ [Event.rdBlock ADXL345_REG_DATAX0 6]⟩) ∧
    (∀ ret data, bus s.n = (ret, data) → 0 ≤ ret → ret ≠ 6 →
        (read_data bus s).1 = Except.error EINVAL) ∧
    (∀ data, bus s.n = (6, data) →
        (read_data bus s).1 = Except.ok
          ⟨shl2_16 (i16_from_le_bytes (data.getD 0 0) (data.getD 1 0)),
           shl2_16 (i16_from_le_bytes (data.getD 2 0) (data.getD 3 0)),
           shl2_16 (i16_from_le_bytes (data.getD 4 0) (data.getD 5 0))⟩) ∧
    ((read_data busC4 ⟨0, []⟩).1 = Except.ok ⟨16, 32, 48⟩) := by
  refine ⟨?_, ?_, ?_, rfl⟩
  · unfold read_data read_i2c_block busCall
    rw [if_neg (by norm_num)]
    dsimp only
    by_cases h : (bus s.n).1 < 0
    · rw [if_pos h]
    · rw [if_neg h]
      split
      · rename_i heq
        injection heq with h1 h2
        exact h2.symm
      · rename_i heq
        injection heq with h1 h2
        exact h2.symm
      · rename_i heq
        injection heq with h1 h2
        cases h1
  · intro ret data hb h0 h6
    unfold read_data read_i2c_block busCall
    rw [if_neg (by norm_num)]
    dsimp only
    rw [hb]
    dsimp only
    rw [if_neg (by omega)]
    split
    · rename_i heq
      injection heq with h1 h2
      injection h1 with h3
      injection h3 with h4 h5
      omega
    · rfl
    · rename_i heq
      injection heq with h1 h2
      cases h1
  · intro data hb
    unfold read_data read_i2c_block busCall
    rw [if_neg (by norm_num)]
    dsimp only
    rw [hb]
    rfl

/-- Witness for C4: the short-count case at a concrete bus returns EINVAL. -/
theorem C4_read_data_witness :
    (read_data busC4short ⟨0, []⟩).1 = Except.error EINVAL :=
  (C4_read_data_decode busC4short ⟨0, []⟩).2.1 3 [] rfl (by decide) (by decide)

/-- Bus for the C5 runs: INT_SOURCE reads as 0 (not ready). -/
def busC5 : Bus := fun _ => (0, [])

/-- Claim C5 (amended): a non-blocking `read` on a device reporting not
ready returns EAGAIN immediately — no sleep event and no sample block read;
the only transport transaction it performs is the single readiness poll of
the INT_SOURCE register (so "zero transport reads" does not hold literally,
see the counterexample). -/
theorem C5_nonblocking_not_ready (bus : Bus) (fuel : Nat) (s : BusState)
    (base : Adxl345Sample) (w : Writer) (hcap : 6 ≤ w.cap)
    (hret : 0 ≤ (bus s.n).1) (hnr : (bus s.n).1.toNat % 256 &&& 0x80 = 0) :
    adxl345_read bus true (fuel + 1) s base w =
      some ⟨Except.error EAGAIN,
            ⟨s.n + 1, s.log ++ [Event.rdByte ADXL345_REG_INT_SOURCE]⟩, base, w⟩ := by
  have hitems : w.cap / sizeOfSample ≠ 0 := by
    unfold sizeOfSample
    omega
  have h1 : ¬ (bus s.n).1 < 0 := by omega
  simp [adxl345_read, wait_ready, data_ready, read_byte, busCall, hitems, h1, hnr]

/-- Witness for C5 at a concrete not-ready bus. -/
theorem C5_nonblocking_witness :
    adxl345_read busC5 true 1 ⟨0, []⟩ ⟨0, 0, 0⟩ (okWriter 6) =
      some ⟨Except.error EAGAIN, ⟨1, [Event.rdByte ADXL345_REG_INT_SOURCE]⟩,
            ⟨0, 0, 0⟩, okWriter 6⟩ :=
  C5_nonblocking_not_ready busC5 0 ⟨0, []⟩ ⟨0, 0, 0⟩ (okWriter 6)
    (by decide) (by decide) (by decide)

/-- Counterexample for C5 as stated: the not-ready non-blocking call does
return EAGAIN, but its transaction log contains one transport read (the
readiness poll of INT_SOURCE), not zero. -/
theorem C5_one_transport_read :
    (adxl345_read busC5 true 1 ⟨0, []⟩ ⟨0, 0, 0⟩ (okWriter 6)).map
        (fun ro => (ro.res, ro.s.log)) =
      some (Except.error EAGAIN, [Event.rdByte ADXL345_REG_INT_SOURCE]) ∧
    [Event.rdByte ADXL345_REG_INT_SOURCE].length = 1 :=
  ⟨rfl, rfl⟩

/-- The full register-transaction sequence of `set_default_config`, given
the bus responses from counter position n (the two written-back values are
computed from the BW_RATE and FIFO_CTL read responses). -/
def cfgEvents (bus : Bus) (n : Nat) : List Event :=
  [Event.wrByte ADXL345_REG_POWER_CTL 0x00,
   Event.wrByte ADXL345_REG_INT_ENABLE 0x00,
   Event.rdByte ADXL345_REG_BW_RATE,
   Event.wrByte ADXL345_REG_BW_RATE ((((bus (n + 2)).1.toNat % 256) &&& 0xFF) &&& 0xEF),
   Event.wrByte ADXL345_REG_DATA_FORMAT 0x0B,
   Event.wrByte ADXL345_REG_INT_MAP 0x00,
   Event.rdByte ADXL345_REG_FIFO_CTL,
   Event.wrByte ADXL345_REG_FIFO_CTL ((((bus (n + 6)).1.toNat % 256) &&& 0xFF) &&& 0x3F)]

/-- Claim C6: with all eight transport responses successful,
`set_default_config` performs exactly the eight register operations of
`cfgEvents`, in that order: power-control 0x00; interrupt-enable 0x00; read
bandwidth-rate then write it back with the low-power bit (bit 4) cleared;
data-format 0x0B; interrupt-map 0x00; read FIFO-control then write it back
with the FIFO-mode bits (bits 6-7) cleared.  If the j-th response fails, the
sequence stops right there: only the first j+1 operations were issued (no
rollback of the earlier writes) and the underlying transport error is
returned. -/
theorem C6_default_config_sequence (bus : Bus) (s : BusState) :
    ((∀ i, i < 8 → 0 ≤ (bus (s.n + i)).1) →
      set_default_config bus s = (Except.ok (), ⟨s.n + 8, s.log ++ cfgEvents bus s.n⟩)) ∧
    (∀ j, j < 8 → (∀ i, i < j → 0 ≤ (bus (s.n + i)).1) → (bus (s.n + j)).1 < 0 →
      set_default_config bus s =
        (Except.error ((bus (s.n + j)).1),
         ⟨s.n + (j + 1), s.log ++ (cfgEvents bus s.n).take (j + 1)⟩)) := by
  have a2 : s.n + 1 + 1 = s.n + 2 := rfl
  have a3 : s.n + 2 + 1 = s.n + 3 := rfl
  have a4 : s.n + 3 + 1 = s.n + 4 := rfl
  have a5 : s.n + 4 + 1 = s.n + 5 := rfl
  have a6 : s.n + 5 + 1 = s.n + 6 := rfl
  have a7 : s.n + 6 + 1 = s.n + 7 := rfl
  have a8 : s.n + 7 + 1 = s.n + 8 := rfl
  constructor
  · intro h
    have g0 : ¬ (bus s.n).1 < 0 := Int.not_lt.mpr (h 0 (by omega))
    have g1 : ¬ (bus (s.n + 1)).1 < 0 := Int.not_lt.mpr (h 1 (by omega))
    have g2 : ¬ (bus (s.n + 2)).1 < 0 := Int.not_lt.mpr (h 2 (by omega))
    have g3 : ¬ (bus (s.n + 3)).1 < 0 := Int.not_lt.mpr (h 3 (by omega))
    have g4 : ¬ (bus (s.n + 4)).1 < 0 := Int.not_lt.mpr (h 4 (by omega))
    have g5 : ¬ (bus (s.n + 5)).1 < 0 := Int.not_lt.mpr (h 5 (by omega))
    have g6 : ¬ (bus (s.n + 6)).1 < 0 := Int.not_lt.mpr (h 6 (by omega))
    have g7 : ¬ (bus (s.n + 7)).1 < 0 := Int.not_lt.mpr (h 7 (by omega))
    simp [set_default_config, write_byte, read_byte, busCall, cfgEvents,
          a2, a3, a4, a5, a6, a7, a8, g0, g1, g2, g3, g4, g5, g6, g7]
  · intro j hj hok hbad
    interval_cases j
    · have hb : (bus s.n).1 < 0 := hbad
      simp [set_default_config, write_byte, busCall, cfgEvents, hb]
    · have g0 : ¬ (bus s.n).1 < 0 := Int.not_lt.mpr (hok 0 (by omega))
      have hb : (bus (s.n + 1)).1 < 0 := hbad
      simp [set_default_config, write_byte, busCall, cfgEvents, g0, hb]
    · have g0 : ¬ (bus s.n).1 < 0 := Int.not_lt.mpr (hok 0 (by omega))
      have g1 : ¬ (bus (s.n + 1)).1 < 0 := Int.not_lt.mpr (hok 1 (by omega))
      have hb : (bus (s.n + 2)).1 < 0 := hbad
      simp [set_default_config, write_byte, read_byte, busCall, cfgEvents,
            a2, g0, g1, hb]
    · have g0 : ¬ (bus s.n).1 < 0 := Int.not_lt.mpr (hok 0 (by omega))
      have g1 : ¬ (bus (s.n + 1)).1 < 0 := Int.not_lt.mpr (hok 1 (by omega))
      have g2 : ¬ (bus (s.n + 2)).1 < 0 := Int.not_lt.mpr (hok 2 (by omega))
      have hb : (bus (s.n + 3)).1 < 0 := hbad
      simp [set_default_config, write_byte, read_byte, busCall, cfgEvents,
            a2, a3, g0, g1, g2, hb]
    · have g0 : ¬ (bus s.n).1 < 0 := Int.not_lt.mpr (hok 0 (by omega))
      have g1 : ¬ (bus (s.n + 1)).1 < 0 := Int.not_lt.mpr (hok 1 (by omega))
      have g2 : ¬ (bus (s.n + 2)).1 < 0 := Int.not_lt.mpr (hok 2 (by omega))
      have g3 : ¬ (bus (s.n + 3)).1 < 0 := Int.not_lt.mpr (hok 3 (by omega))
      have hb : (bus (s.n + 4)).1 < 0 := hbad
      simp [set_default_config, write_byte, read_byte, busCall, cfgEvents,
            a2, a3, a4, g0, g1, g2, g3, hb]
    · have g0 : ¬ (bus s.n).1 < 0 := Int.not_lt.mpr (hok 0 (by omega))
      have g1 : ¬ (bus (s.n + 1)).1 < 0 := Int.not_lt.mpr (hok 1 (by omega))
      have g2 : ¬ (bus (s.n + 2)).1 < 0 := Int.not_lt.mpr (hok 2 (by omega))
      have g3 : ¬ (bus (s.n + 3)).1 < 0 := Int.not_lt.mpr (hok 3 (by omega))
      have g4 : ¬ (bus (s.n + 4)).1 < 0 := Int.not_lt.mpr (hok 4 (by omega))
      have hb : (bus (s.n + 5)).1 < 0 := hbad
      simp [set_default_config, write_byte, read_byte, busCall, cfgEvents,
            a2, a3, a4, a5, g0, g1, g2, g3, g4, hb]
    · have g0 : ¬ (bus s.n).1 < 0 := Int.not_lt.mpr (hok 0 (by omega))
      have g1 : ¬ (bus (s.n + 1)).1 < 0 := Int.not_lt.mpr (hok 1 (by omega))
      have g2 : ¬ (bus (s.n + 2)).1 < 0 := Int.not_lt.mpr (hok 2 (by omega))
      have g3 : ¬ (bus (s.n + 3)).1 < 0 := Int.not_lt.mpr (hok 3 (by omega))
      have g4 : ¬ (bus (s.n + 4)).1 < 0 := Int.not_lt.mpr (hok 4 (by omega))
      have g5 : ¬ (bus (s.n + 5)).1 < 0 := Int.not_lt.mpr (hok 5 (by omega))
      have hb : (bus (s.n + 6)).1 < 0 := hbad
      simp [set_default_config, write_byte, read_byte, busCall, cfgEvents,
            a2, a3, a4, a5, a6, g0, g1, g2, g3, g4, g5, hb]
    · have g0 : ¬ (bus s.n).1 < 0 := Int.not_lt.mpr (hok 0 (by omega))
      have g1 : ¬ (bus (s.n + 1)).1 < 0 := Int.not_lt.mpr (hok 1 (by omega))
      have g2 : ¬ (bus (s.n + 2)).1 < 0 := Int.not_lt.mpr (hok 2 (by omega))
      have g3 : ¬ (bus (s.n + 3)).1 < 0 := Int.not_lt.mpr (hok 3 (by omega))
      have g4 : ¬ (bus (s.n + 4)).1 < 0 := Int.not_lt.mpr (hok 4 (by omega))
      have g5 : ¬ (bus (s.n + 5)).1 < 0 := Int.not_lt.mpr (hok 5 (by omega))
      have g6 : ¬ (bus (s.n + 6)).1 < 0 := Int.not_lt.mpr (hok 6 (by omega))
      have hb : (bus (s.n + 7)).1 < 0 := hbad
      simp [set_default_config, write_byte, read_byte, busCall, cfgEvents,
            a2, a3, a4, a5, a6, a7, g0, g1, g2, g3, g4, g5, g6, hb]

/-- Bus on which every transaction succeeds with return value 0. -/
def busAllOk : Bus := fun _ => (0, [])

/-- Witness for C6: the all-successful sequence at a concrete bus. -/
theorem C6_default_config_witness :
    set_default_config busAllOk ⟨0, []⟩ = (Except.ok (), ⟨8, cfgEvents busAllOk 0⟩) :=
  (C6_default_config_sequence busAllOk ⟨0, []⟩).1 (fun i _ => by simp [busAllOk])

end Adxl345



